import Mathlib

/-!
Verification of the MDTF-diagnostics preprocessing pipeline
(`src/preprocessor.py`, `src/util.py`) against its natural-language
specification.  The Python code is shallowly embedded: xarray datasets become
finite association structures, Python exceptions become an explicit error
type threaded through `Except`, and timestamps / pressure levels become `Int`
(the `cftime` calendar cast and the `metpy` unit layer are order-preserving
collaborators, so comparisons on `Int` model comparisons on their values).
-/

/-- Python exceptions raised by the embedded code.  The spec's error taxonomy
maps onto these: `DataRangeError` and `LevelNotFoundError` are
`DataPreprocessError` in the code, `ResolutionError` and
`CalendarResolutionError` are `ValueError`, `MergeConsistencyError` is the
error xarray's merge machinery raises for `compat="identical"` /
`join="exact"` violations. -/
inductive PyError where
  | dataPreprocessError (msg : String)
  | keyError (key : String)
  | valueError (msg : String)
  | assertionError
  | mergeError (msg : String)
  | indexError
deriving DecidableEq

/-- A Python value that is either a bare element or a list of elements:
the type-shifting return convention of `MultiMap.get_` and
`MultiMap.inverse_get_` in `util.py`. -/
inductive PyVal (α : Type) where
  | single (x : α)
  | list (xs : List α)
deriving DecidableEq

instance exceptDecEq {ε α : Type} [DecidableEq ε] [DecidableEq α] :
    DecidableEq (Except ε α) := fun x y =>
  match x, y with
  | .ok a, .ok b =>
    if h : a = b then .isTrue (by rw [h]) else .isFalse (fun hh => h (Except.ok.inj hh))
  | .error a, .error b =>
    if h : a = b then .isTrue (by rw [h]) else .isFalse (fun hh => h (Except.error.inj hh))
  | .ok _, .error _ => .isFalse (fun hh => Except.noConfusion hh)
  | .error _, .ok _ => .isFalse (fun hh => Except.noConfusion hh)

/-- Python dict lookup `d[key]` as an association-list lookup
(first binding wins; a dict has one binding per key). -/
def dget {α : Type} : List (String × α) → String → Option α
  | [], _ => none
  | (k, v) :: rest, key => if k = key then some v else dget rest key

@[simp] theorem dget_nil {α : Type} (key : String) : dget ([] : List (String × α)) key = none := rfl

@[simp] theorem dget_cons {α : Type} (k key : String) (v : α) (rest : List (String × α)) :
    dget ((k, v) :: rest) key = if k = key then some v else dget rest key := rfl

/-- Embedding of `util.MultiMap`: a dict whose values are sets.  A value set is embedded as
a duplicate-free list (Python set enumeration order is unspecified; the
claims settled here do not depend on it). -/
structure MultiMap (V : Type) where
  entries : List (String × List V)
deriving DecidableEq

/-- Constructor `MultiMap.__init__` applied to a plain dict of non-iterable values:
each value `v` becomes the singleton set `\x7bv\x7d`. -/
def MultiMap.ofDict {V : Type} (d : List (String × V)) : MultiMap V :=
  ⟨d.map (fun kv => (kv.1, [kv.2]))⟩

/-- Method `MultiMap.get_`: raise `KeyError` if the key is absent; return the sole
element of a one-element value set, and the list of elements otherwise. -/
def MultiMap.get_ {V : Type} (m : MultiMap V) (k : String) : Except PyError (PyVal V) :=
  match dget m.entries k with
  | none => .error (.keyError k)
  | some vs =>
    match vs with
    | [v] => .ok (.single v)
    | _ => .ok (.list vs)

/-- The keys whose value set contains `v`, in key insertion order: the set
`MultiMap.inverse()[v]`. -/
def MultiMap.inverseKeys {V : Type} [DecidableEq V] (m : MultiMap V) (v : V) : List String :=
  (m.entries.filter (fun kv => decide (v ∈ kv.2))).map (fun kv => kv.1)

/-- Method `MultiMap.inverse_get_`: look `v` up in the plain dict built by
`inverse()` (a `KeyError` when no key maps to `v`); return a sole matching
key bare and several matching keys as a list. -/
def MultiMap.inverse_get_ {V : Type} [DecidableEq V] (m : MultiMap V) (v : V) :
    Except PyError (PyVal String) :=
  match m.inverseKeys v with
  | [] => .error (.keyError "inverse")
  | [k] => .ok (.single k)
  | ks => .ok (.list ks)

/-- C10: for a `MultiMap` `m`, `get_ k` returns the sole element when `k`'s
value set is a singleton and the list of elements otherwise, and raises
`KeyError` when `k` is absent; `inverse_get_ v` returns a single key when
exactly one key maps to `v` and a list of keys when several do. -/
theorem multimap_get_and_inverse_get_spec {V : Type} [DecidableEq V]
    (m : MultiMap V) (k : String) (v : V) :
    (dget m.entries k = none → m.get_ k = .error (.keyError k)) ∧
    (∀ x : V, dget m.entries k = some [x] → m.get_ k = .ok (.single x)) ∧
    (∀ vs : List V, dget m.entries k = some vs → vs.length ≠ 1 →
      m.get_ k = .ok (.list vs)) ∧
    (∀ k0 : String, m.inverseKeys v = [k0] → m.inverse_get_ v = .ok (.single k0)) ∧
    (∀ ks : List String, m.inverseKeys v = ks → 2 ≤ ks.length →
      m.inverse_get_ v = .ok (.list ks)) := by
  refine ⟨?_, ?_, ?_, ?_, ?_⟩
  · intro h; simp [MultiMap.get_, h]
  · intro x h; simp [MultiMap.get_, h]
  · intro vs h hlen
    simp only [MultiMap.get_, h]
    match vs, hlen with
    | [], _ => rfl
    | [x], hlen => exact absurd rfl hlen
    | x :: y :: rest, _ => rfl
  · intro k0 h; simp [MultiMap.inverse_get_, h]
  · intro ks h hlen
    simp only [MultiMap.inverse_get_, h]
    match ks, hlen with
    | k1 :: k2 :: rest, _ => rfl

/-- Witness for C10 on a concrete map: `"a" ↦ \x7b1\x7d`, `"b" ↦ \x7b1, 2\x7d`. -/
theorem multimap_get_and_inverse_get_spec_witness :
    (MultiMap.get_ ⟨[("a", [1]), ("b", [1, 2])]⟩ "a" = .ok (.single 1) ∧
     MultiMap.get_ ⟨[("a", [1]), ("b", [1, 2])]⟩ "b" = .ok (.list [1, 2]) ∧
     MultiMap.get_ (⟨[("a", [1]), ("b", [1, 2])]⟩ : MultiMap Nat) "c" =
       .error (.keyError "c")) ∧
    (MultiMap.inverse_get_ (⟨[("a", [1]), ("b", [1, 2])]⟩ : MultiMap Nat) 2 =
       .ok (.single "b") ∧
     MultiMap.inverse_get_ (⟨[("a", [1]), ("b", [1, 2])]⟩ : MultiMap Nat) 1 =
       .ok (.list ["a", "b"])) := by
  have h1 := multimap_get_and_inverse_get_spec (⟨[("a", [1]), ("b", [1, 2])]⟩ : MultiMap Nat) "a" 2
  have h2 := multimap_get_and_inverse_get_spec (⟨[("a", [1]), ("b", [1, 2])]⟩ : MultiMap Nat) "b" 1
  have h3 := multimap_get_and_inverse_get_spec (⟨[("a", [1]), ("b", [1, 2])]⟩ : MultiMap Nat) "c" 1
  exact ⟨⟨h1.2.1 1 rfl, h2.2.2.1 [1, 2] rfl (by decide), h3.1 rfl⟩,
         ⟨h1.2.2.2.1 "b" rfl, h2.2.2.2.2 ["a", "b"] rfl (by decide)⟩⟩

/-- Python `str.strip()` whitespace test (space, tab, newline, carriage
return cover the attribute strings that occur here). -/
def isSpaceChar (c : Char) : Bool := c == ' ' || c == '\t' || c == '\n' || c == '\r'

/-- Python `str.strip()`: drop leading and trailing whitespace. -/
def pyStrip (s : String) : String :=
  ⟨((s.data.dropWhile isSpaceChar).reverse.dropWhile isSpaceChar).reverse⟩

/-- Python `str.lower()`. -/
def pyLower (s : String) : String := ⟨s.data.map Char.toLower⟩

/-- One data variable of an xarray `Dataset`.  `cells` is a dense array in
label space: each entry pairs a coordinate label per dimension (in `dims`
order) with the stored value, so label-based selection (`sel`) is a filter
over `cells`. -/
structure NCVar where
  dims  : List String
  attrs : List (String × String)
  cells : List (List Int × Int)
deriving DecidableEq

/-- An xarray `Dataset`: named data variables, named coordinate axes with
their label values, and global attributes.  Timestamps and pressure levels
are `Int`: the `cftime` calendar cast in `cast_to_cftime` and metpy's unit
conversion are order/value-preserving collaborator services. -/
structure Dataset where
  data_vars : List (String × NCVar)
  coords    : List (String × List Int)
  attrs     : List (String × String)
deriving DecidableEq

/-- Helper `parse_cf_wrapper._strip_dict`: strip whitespace from every key and
string value of an attribute dict. -/
def stripAttrsDict (d : List (String × String)) : List (String × String) :=
  d.map (fun kv => (pyStrip kv.1, pyStrip kv.2))

/-- The in-place attribute mutation performed by `parse_cf_wrapper`:
`ds.attrs = _strip_dict(ds.attrs)` and likewise for every variable's attrs.
Dimensions, coordinates and cell values are untouched. -/
def stripDatasetAttrs (ds : Dataset) : Dataset :=
  { data_vars := ds.data_vars.map (fun kv => (kv.1, { kv.2 with attrs := stripAttrsDict kv.2.attrs })),
    coords := ds.coords,
    attrs := stripAttrsDict ds.attrs }

/-- Restrict one variable to the labels of dimension `d` lying in `[lo, hi]`
(a no-op for variables without that dimension): the effect of
`ds.sel(d = slice(lo, hi))` on a data variable. -/
def NCVar.selRange (v : NCVar) (d : String) (lo hi : Int) : NCVar :=
  match v.dims.findIdx? (· == d) with
  | none => v
  | some i =>
      { v with cells := v.cells.filter (fun c =>
          match c.1.get? i with
          | some t => decide (lo ≤ t) && decide (t ≤ hi)
          | none => false) }

/-- Selection `ds.sel(tname = slice(lo, hi))`: label-based selection along the `tname`
axis, inclusive of both endpoints. -/
def Dataset.selTimeRange (ds : Dataset) (tname : String) (lo hi : Int) : Dataset :=
  { data_vars := ds.data_vars.map (fun kv => (kv.1, kv.2.selRange tname lo hi)),
    coords := ds.coords.map (fun c =>
      if c.1 = tname then (c.1, c.2.filter (fun t => decide (lo ≤ t) && decide (t ≤ hi))) else c),
    attrs := ds.attrs }

/-- Scalar label selection `ds.sel(d = p)` on one variable: keep the cells
whose label along `d` equals `p` and drop that dimension. -/
def NCVar.selAt (v : NCVar) (d : String) (p : Int) : NCVar :=
  match v.dims.findIdx? (· == d) with
  | none => v
  | some i =>
      { dims := v.dims.eraseIdx i, attrs := v.attrs,
        cells := (v.cells.filter (fun c => c.1.get? i == some p)).map
          (fun c => (c.1.eraseIdx i, c.2)) }

/-- Selection `ds.metpy.sel(zname = p * units.hPa)` after unit conversion: scalar
selection at the exact level `p`, which becomes a scalar coordinate. -/
def Dataset.selLevel (ds : Dataset) (zname : String) (p : Int) : Dataset :=
  { data_vars := ds.data_vars.map (fun kv => (kv.1, kv.2.selAt zname p)),
    coords := ds.coords.map (fun c => if c.1 = zname then (c.1, [p]) else c),
    attrs := ds.attrs }

/-- Renaming `ds.rename(\x7bold: nw\x7d)` restricted to data variables. -/
def Dataset.renameVar (ds : Dataset) (old nw : String) : Dataset :=
  { ds with data_vars := ds.data_vars.map (fun kv => if kv.1 = old then (nw, kv.2) else kv) }

/-- The four bounds of the user's fuzzy date range, already cast into the
dataset's calendar (`cast_to_cftime` is the identity on the `Int` timestamp
embedding). -/
structure DateRangeBounds where
  startLower : Int
  startUpper : Int
  endLower   : Int
  endUpper   : Int
deriving DecidableEq

/-- Method `CropDateRangeFunction.crop_time_axis`: pass time-independent data
through with a warning; raise `DataPreprocessError` when the dataset starts
after the requested start-upper bound or ends before the requested end-lower
bound; otherwise select the inclusive slice [start-lower, end-upper]. -/
def crop_time_axis (ds : Dataset) (ax_names : List (String × String))
    (dr : DateRangeBounds) : Except PyError Dataset :=
  match dget ax_names "T" with
  | none => .ok ds
  | some tname =>
    match dget ds.coords tname with
    | none => .error (.keyError tname)
    | some tvals =>
      match tvals with
      | [] => .error .indexError
      | t0 :: rest =>
        if t0 > dr.startUpper then
          .error (.dataPreprocessError "dataset start is after requested date range start")
        else if (t0 :: rest).getLast (List.cons_ne_nil t0 rest) < dr.endLower then
          .error (.dataPreprocessError "dataset end is before requested date range end")
        else
          .ok (ds.selTimeRange tname dr.startLower dr.endUpper)

/-- Hook `CropDateRangeFunction.process_file` returns its input unchanged. -/
def cropProcessFile (ds : Dataset) : Dataset := ds

/-- Hook `CropDateRangeFunction.process_static_dataset` returns its input
unchanged. -/
def cropProcessStatic (ds : Dataset) : Dataset := ds

/-- Outcome of one `preprocess()` run: `written` is the file at
`v.dest_path` (`none` when an exception fired before `to_netcdf`), `err`
the exception that propagated, if any. -/
structure RunResult where
  written : Option Dataset
  err     : Option PyError
deriving DecidableEq

/-- Method `SingleFilePreprocessor.preprocess` for the sample-model pipeline (its
function chain is `[CropDateRangeFunction]`).  The context (`ax_names`,
`dr`) stands for the state `parse` resolved from the first file; `parse`'s
only effect on the dataset itself is the in-place attribute strip of
`parse_cf_wrapper`. -/
def SingleFilePreprocessor.preprocess (files : List Dataset)
    (ax_names : List (String × String)) (dr : DateRangeBounds)
    (is_static : Bool) : RunResult :=
  match files with
  | [ds0] =>
    let ds := stripDatasetAttrs ds0
    if is_static then
      -- process_static_dataset: every hook returns its input unchanged (and
      -- the loop discards the hooks' return values anyway)
      ⟨some (cropProcessStatic ds), none⟩
    else
      -- process_file: parse_cf_wrapper strips attributes again (idempotent
      -- on the already-stripped dict), then CropDateRangeFunction.process_file
      let ds := stripDatasetAttrs (cropProcessFile ds)
      match crop_time_axis ds ax_names dr with
      | .ok out => ⟨some out, none⟩    -- ds.to_netcdf(path=self.v.dest_path)
      | .error e => ⟨none, some e⟩     -- exception propagates, nothing written
  | _ => ⟨none, some .assertionError⟩  -- assert len(self.files) == 1

/-- C1: on a time-dependent dataset (the context has a T axis naming a
non-empty time coordinate), `crop_time_axis` fails with the spec's
`DataRangeError` (a `DataPreprocessError`) exactly when the dataset's first
timestamp is after the requested start-upper bound or its last timestamp is
before the requested end-lower bound; on success it returns the dataset
restricted to the inclusive sub-range [start-lower, end-upper]; and when the
crop fails, the single-file pipeline writes nothing to the destination
path. -/
theorem crop_time_axis_spec (ds : Dataset) (ax_names : List (String × String))
    (dr : DateRangeBounds) (tname : String) (t0 : Int) (rest : List Int)
    (hT : dget ax_names "T" = some tname)
    (hco : dget ds.coords tname = some (t0 :: rest)) :
    ((t0 > dr.startUpper ∨ (t0 :: rest).getLast (List.cons_ne_nil t0 rest) < dr.endLower) ↔
      (∃ msg, crop_time_axis ds ax_names dr = .error (.dataPreprocessError msg))) ∧
    (¬(t0 > dr.startUpper ∨ (t0 :: rest).getLast (List.cons_ne_nil t0 rest) < dr.endLower) →
      crop_time_axis ds ax_names dr = .ok (ds.selTimeRange tname dr.startLower dr.endUpper)) ∧
    (∀ ds0 : Dataset, ∀ e : PyError,
      crop_time_axis (stripDatasetAttrs (stripDatasetAttrs ds0)) ax_names dr = .error e →
      SingleFilePreprocessor.preprocess [ds0] ax_names dr false = ⟨none, some e⟩) := by
  refine ⟨?_, ?_, ?_⟩
  · constructor
    · intro h
      rcases h with h1 | h2
      · exact ⟨"dataset start is after requested date range start", by
          simp only [crop_time_axis, hT, hco]; rw [if_pos h1]⟩
      · by_cases h1 : t0 > dr.startUpper
        · exact ⟨"dataset start is after requested date range start", by
            simp only [crop_time_axis, hT, hco]; rw [if_pos h1]⟩
        · exact ⟨"dataset end is before requested date range end", by
            simp only [crop_time_axis, hT, hco]; rw [if_neg h1, if_pos h2]⟩
    · rintro ⟨msg, hmsg⟩
      by_cases h1 : t0 > dr.startUpper
      · exact Or.inl h1
      by_cases h2 : (t0 :: rest).getLast (List.cons_ne_nil t0 rest) < dr.endLower
      · exact Or.inr h2
      · simp only [crop_time_axis, hT, hco, if_neg h1, if_neg h2] at hmsg
        exact Except.noConfusion hmsg
  · intro h
    push_neg at h
    simp only [crop_time_axis, hT, hco, if_neg (not_lt.mpr h.1), if_neg (not_lt.mpr h.2)]
  · intro ds0 e h
    simp [SingleFilePreprocessor.preprocess, cropProcessFile, h]

/-- A concrete 1-variable dataset on time axis [1, 2, 3] for the C1
witness. -/
def cropWitnessDS : Dataset :=
  ⟨[("tas", ⟨["time"], [("units", " K ")], [([1], 10), ([2], 20), ([3], 30)]⟩)],
   [("time", [1, 2, 3])],
   [("title", " sample ")]⟩

/-- Axis-role mapping for the C1 witness. -/
def cropWitnessAx : List (String × String) := [("var", "tas"), ("T", "time")]

/-- Witness for C1: requesting [5,6]–[7,8] against coverage [1,3] fails (the
dataset ends before the requested end-lower bound 7) and the pipeline writes
nothing; requesting [2,2]–[3,3] succeeds with the slice [2,3]. -/
theorem crop_time_axis_spec_witness :
    (∃ msg, crop_time_axis cropWitnessDS cropWitnessAx ⟨5, 6, 7, 8⟩ =
      .error (.dataPreprocessError msg)) ∧
    crop_time_axis cropWitnessDS cropWitnessAx ⟨2, 2, 3, 3⟩ =
      .ok (cropWitnessDS.selTimeRange "time" 2 3) ∧
    SingleFilePreprocessor.preprocess [cropWitnessDS] cropWitnessAx ⟨5, 6, 7, 8⟩ false =
      ⟨none, some (.dataPreprocessError "dataset end is before requested date range end")⟩ := by
  refine ⟨?_, ?_, ?_⟩
  · exact (crop_time_axis_spec cropWitnessDS cropWitnessAx ⟨5, 6, 7, 8⟩ "time" 1 [2, 3]
      rfl rfl).1.mp (Or.inr (by decide))
  · exact (crop_time_axis_spec cropWitnessDS cropWitnessAx ⟨2, 2, 3, 3⟩ "time" 1 [2, 3]
      rfl rfl).2.1 (by decide)
  · exact (crop_time_axis_spec cropWitnessDS cropWitnessAx ⟨5, 6, 7, 8⟩ "time" 1 [2, 3]
      rfl rfl).2.2 cropWitnessDS _ rfl

/-- C6: for a valid single-file input whose variable is static, the pipeline
raises nothing and writes its input dataset modulo attribute normalization:
global and per-variable attributes are whitespace-stripped while every
variable's dimensions and cell values and every coordinate axis are written
out unchanged. -/
theorem single_file_static_path_identity (ds : Dataset)
    (ax_names : List (String × String)) (dr : DateRangeBounds) :
    (SingleFilePreprocessor.preprocess [ds] ax_names dr true).err = none ∧
    (SingleFilePreprocessor.preprocess [ds] ax_names dr true).written =
      some (stripDatasetAttrs ds) ∧
    (stripDatasetAttrs ds).data_vars.map (fun kv => (kv.1, kv.2.dims, kv.2.cells)) =
      ds.data_vars.map (fun kv => (kv.1, kv.2.dims, kv.2.cells)) ∧
    (stripDatasetAttrs ds).coords = ds.coords := by
  refine ⟨rfl, rfl, ?_, rfl⟩
  simp [stripDatasetAttrs]

/-- The slice of the variable descriptor `extract_level` reads:
`name_in_model` and the optional scalar coordinates.  The pressure value is
already an `Int` (the code's `int(...)` cast is the identity here). -/
structure VarDescriptor where
  name_in_model : String
  scalar_coordinates : List (String × Int)
deriving DecidableEq

/-- Method `ExtractLevelFunction.extract_level`: a no-op unless the context has a Z
axis and the descriptor carries a scalar `pressure` coordinate; otherwise a
unit-aware exact selection at that level.  A level absent from the vertical
coordinate surfaces as a `KeyError` from `.sel`, caught and re-raised as
`DataPreprocessError`; on success the resolved variable is renamed to its
name suffixed with the integer level. -/
def extract_level (ds : Dataset) (ax_names : List (String × String))
    (v : VarDescriptor) : Except PyError Dataset :=
  match dget ax_names "Z", dget v.scalar_coordinates "pressure" with
  | some zname, some p_level =>
    (match dget ds.coords zname, dget ax_names "var" with
     | some zvals, some vname =>
       if p_level ∈ zvals then
         .ok ((ds.selLevel zname p_level).renameVar vname (vname ++ toString p_level))
       else
         .error (.dataPreprocessError "Pressure axis of file didn't provide requested level")
     | some _, none =>
       -- ax_names['var'] raises KeyError inside the try block, re-raised the same way
       .error (.dataPreprocessError "Pressure axis of file didn't provide requested level")
     | none, _ =>
       -- selecting on a dimension the dataset does not have raises ValueError
       .error (.valueError "dimensions do not exist"))
  | _, _ => .ok ds

/-- Hook `ExtractLevelFunction.process_file`: level extraction happens here, on a
per-file basis. -/
def extractLevelProcessFile (ds : Dataset) (ax_names : List (String × String))
    (v : VarDescriptor) : Except PyError Dataset :=
  extract_level ds ax_names v

/-- Hook `ExtractLevelFunction.process_static_dataset` returns its input
unchanged. -/
def extractLevelProcessStatic (ds : Dataset) : Dataset := ds

/-- Hook `ExtractLevelFunction.process_dataset` returns its input unchanged. -/
def extractLevelProcessDataset (ds : Dataset) : Dataset := ds

/-- C5: `extract_level` is a no-op when the context has no Z axis or the
descriptor has no scalar pressure coordinate; when applicable it fails with
the spec's `LevelNotFoundError` (`DataPreprocessError`) if the exact level is
absent from the vertical coordinate, and on success renames the resolved
variable to the original name suffixed with the level's integer value; the
extraction runs in the per-file hook while the whole-dataset hook is the
identity. -/
theorem extract_level_per_file_spec (ds : Dataset) (ax_names : List (String × String))
    (v : VarDescriptor) :
    (dget ax_names "Z" = none → extract_level ds ax_names v = .ok ds) ∧
    (dget v.scalar_coordinates "pressure" = none → extract_level ds ax_names v = .ok ds) ∧
    (∀ zname p zvals, dget ax_names "Z" = some zname →
      dget v.scalar_coordinates "pressure" = some p →
      dget ds.coords zname = some zvals → p ∉ zvals →
      ∃ msg, extract_level ds ax_names v = .error (.dataPreprocessError msg)) ∧
    (∀ zname p zvals vname, dget ax_names "Z" = some zname →
      dget v.scalar_coordinates "pressure" = some p →
      dget ds.coords zname = some zvals → p ∈ zvals →
      dget ax_names "var" = some vname →
      extract_level ds ax_names v =
        .ok ((ds.selLevel zname p).renameVar vname (vname ++ toString p))) ∧
    (extractLevelProcessFile ds ax_names v = extract_level ds ax_names v ∧
     extractLevelProcessDataset ds = ds) := by
  refine ⟨?_, ?_, ?_, ?_, rfl, rfl⟩
  · intro h
    cases hp : dget v.scalar_coordinates "pressure" <;> simp [extract_level, h, hp]
  · intro h
    cases hz : dget ax_names "Z" <;> simp [extract_level, h, hz]
  · intro zname p zvals hz hp hco hmem
    cases hv : dget ax_names "var" with
    | none =>
      exact ⟨"Pressure axis of file didn't provide requested level",
        by simp [extract_level, hz, hp, hco, hv]⟩
    | some vname =>
      exact ⟨"Pressure axis of file didn't provide requested level",
        by simp [extract_level, hz, hp, hco, hv, hmem]⟩
  · intro zname p zvals vname hz hp hco hmem hv
    simp [extract_level, hz, hp, hco, hv, hmem]

/-- A concrete dataset with vertical axis `plev` = [500, 850] for the C5
witness. -/
def extractWitnessDS : Dataset :=
  ⟨[("temp", ⟨["plev"], [("units", "K")], [([500], 1), ([850], 2)]⟩)],
   [("plev", [500, 850])],
   []⟩

/-- Axis-role mapping for the C5 witness. -/
def extractWitnessAx : List (String × String) := [("var", "temp"), ("Z", "plev")]

/-- Witness for C5: requesting level 500 renames `temp` to `temp500` and
keeps exactly the 500 hPa cells; requesting the absent level 300 fails;
with no Z axis in the context the function passes the dataset through. -/
theorem extract_level_per_file_spec_witness :
    extract_level extractWitnessDS extractWitnessAx ⟨"temp", [("pressure", 500)]⟩ =
      .ok ((extractWitnessDS.selLevel "plev" 500).renameVar "temp"
        ("temp" ++ toString (500 : Int))) ∧
    (∃ msg, extract_level extractWitnessDS extractWitnessAx ⟨"temp", [("pressure", 300)]⟩ =
      .error (.dataPreprocessError msg)) ∧
    extract_level extractWitnessDS [("var", "temp")] ⟨"temp", [("pressure", 500)]⟩ =
      .ok extractWitnessDS ∧
    dget ((extractWitnessDS.selLevel "plev" 500).renameVar "temp"
        ("temp" ++ toString (500 : Int))).data_vars "temp500" =
      some ⟨[], [("units", "K")], [([], 1)]⟩ := by
  refine ⟨?_, ?_, ?_, by decide⟩
  · exact (extract_level_per_file_spec extractWitnessDS extractWitnessAx
      ⟨"temp", [("pressure", 500)]⟩).2.2.2.1 "plev" 500 [500, 850] "temp"
      rfl rfl rfl (by decide) rfl
  · exact (extract_level_per_file_spec extractWitnessDS extractWitnessAx
      ⟨"temp", [("pressure", 300)]⟩).2.2.1 "plev" 300 [500, 850]
      rfl rfl rfl (by decide)
  · exact (extract_level_per_file_spec extractWitnessDS [("var", "temp")]
      ⟨"temp", [("pressure", 500)]⟩).1 rfl

/-- What `parse_calendar` reads from the time axis: `ds[time].values[0]`'s
optional `calendar` attribute (the cftime-encoded calendar) and the time
variable's attribute dict `ds[time].attrs`. -/
structure TimeAxisInfo where
  encodedCalendar : Option String
  timeAttrs : List (String × String)
deriving DecidableEq

/-- Helper `parse_calendar._check_backup_location`: when the calendar resolved so
far is falsy (unset or the empty string) and the dict has a `calendar` key,
take that value lowercased and whitespace-stripped. -/
def check_backup_location (cal : Option String) (d : List (String × String)) :
    Option String :=
  if (match cal with | none => true | some s => s == "") then
    match dget d "calendar" with
    | some s => some (pyStrip (pyLower s))
    | none => cal
  else cal

/-- Method `MDTFPreprocessorBase.parse_calendar`: read the cftime-encoded calendar
off the first time value; only if that attribute is absent, fall back through
the time variable's attrs, the dataset's global attrs and the naming
convention's declared default; raise `ValueError` if still unset. -/
def parse_calendar (t : TimeAxisInfo) (dsAttrs convention : List (String × String)) :
    Except PyError String :=
  let cal := t.encodedCalendar
  let cal := match cal with
    | none =>
      check_backup_location
        (check_backup_location (check_backup_location cal t.timeAttrs) dsAttrs)
        convention
    | some c => some c
  match cal with
  | none => .error (.valueError "No calendar info in file.")
  | some c => .ok c

/-- C4: calendar resolution consults, in this fixed order: the time
coordinate's own encoded calendar, the time variable's attributes, the
dataset's global attributes, the naming convention's declared default; the
first source that provides a calendar (a value that is non-empty once
lowercased and stripped) wins, and when all four are exhausted the spec's
`CalendarResolutionError` (`ValueError`) is raised. -/
theorem parse_calendar_order_spec (t : TimeAxisInfo)
    (dsAttrs convention : List (String × String)) :
    (∀ c, t.encodedCalendar = some c →
      parse_calendar t dsAttrs convention = .ok c) ∧
    (∀ s, t.encodedCalendar = none → dget t.timeAttrs "calendar" = some s →
      pyStrip (pyLower s) ≠ "" →
      parse_calendar t dsAttrs convention = .ok (pyStrip (pyLower s))) ∧
    (∀ s, t.encodedCalendar = none → dget t.timeAttrs "calendar" = none →
      dget dsAttrs "calendar" = some s → pyStrip (pyLower s) ≠ "" →
      parse_calendar t dsAttrs convention = .ok (pyStrip (pyLower s))) ∧
    (∀ s, t.encodedCalendar = none → dget t.timeAttrs "calendar" = none →
      dget dsAttrs "calendar" = none → dget convention "calendar" = some s →
      parse_calendar t dsAttrs convention = .ok (pyStrip (pyLower s))) ∧
    (t.encodedCalendar = none → dget t.timeAttrs "calendar" = none →
      dget dsAttrs "calendar" = none → dget convention "calendar" = none →
      parse_calendar t dsAttrs convention =
        .error (.valueError "No calendar info in file.")) := by
  refine ⟨?_, ?_, ?_, ?_, ?_⟩
  · intro c h; simp [parse_calendar, h]
  · intro s h0 h1 hne
    simp [parse_calendar, check_backup_location, h0, h1, hne]
  · intro s h0 h1 h2 hne
    simp [parse_calendar, check_backup_location, h0, h1, h2, hne]
  · intro s h0 h1 h2 h3
    simp [parse_calendar, check_backup_location, h0, h1, h2, h3]
  · intro h0 h1 h2 h3
    simp [parse_calendar, check_backup_location, h0, h1, h2, h3]

/-- Witness for C4: each of the four sources wins in turn, and exhaustion
raises. -/
theorem parse_calendar_order_spec_witness :
    parse_calendar ⟨some "noleap", [("calendar", "JULIAN")]⟩
      [("calendar", "gregorian")] [("calendar", "360_day")] = .ok "noleap" ∧
    parse_calendar ⟨none, [("calendar", " NoLeap ")]⟩
      [("calendar", "gregorian")] [("calendar", "360_day")] = .ok "noleap" ∧
    parse_calendar ⟨none, []⟩ [("calendar", " Gregorian")] [("calendar", "360_day")] =
      .ok "gregorian" ∧
    parse_calendar ⟨none, []⟩ [] [("calendar", "360_day")] = .ok "360_day" ∧
    parse_calendar ⟨none, []⟩ [] [] = .error (.valueError "No calendar info in file.") := by
  refine ⟨?_, ?_, ?_, ?_, ?_⟩
  · exact (parse_calendar_order_spec ⟨some "noleap", [("calendar", "JULIAN")]⟩
      [("calendar", "gregorian")] [("calendar", "360_day")]).1 "noleap" rfl
  · have h := (parse_calendar_order_spec ⟨none, [("calendar", " NoLeap ")]⟩
      [("calendar", "gregorian")] [("calendar", "360_day")]).2.1 " NoLeap " rfl rfl
      (by decide)
    exact h.trans (by decide)
  · have h := (parse_calendar_order_spec ⟨none, []⟩ [("calendar", " Gregorian")]
      [("calendar", "360_day")]).2.2.1 " Gregorian" rfl rfl rfl (by decide)
    exact h.trans (by decide)
  · have h := (parse_calendar_order_spec ⟨none, []⟩ [] [("calendar", "360_day")]).2.2.2.1
      "360_day" rfl rfl rfl rfl
    exact h.trans (by decide)
  · exact (parse_calendar_order_spec ⟨none, []⟩ [] []).2.2.2.2 rfl rfl rfl rfl

/-- Modelled from the spec: `util.coerce_from_iter` is called by
`parse_axes._find_var_name` but is absent from this snapshot's
`src/util.py`.  Per the spec (§4.1 and the §9 note on the set-valued reverse
lookup) it collapses a one-element collection to its sole element and
returns any other collection unchanged. -/
def coerce_from_iter (l : List Nat) : Nat ⊕ List Nat :=
  match l with
  | [x] => .inl x
  | _ => .inr l

/-- Tail of Python `max(values, key=coerce_from_iter)`: walk the remaining
value sets keeping the one with the greater key, first-seen winning ties;
comparing a bare int key with a list key raises `TypeError`. -/
def pyMaxGo (best : List Nat) : List (List Nat) → Except PyError (List Nat)
  | [] => .ok best
  | w :: ws =>
    match coerce_from_iter best, coerce_from_iter w with
    | .inl a, .inl b => pyMaxGo (if b > a then w else best) ws
    | _, _ => .error (.valueError "TypeError: unsupported comparison")

/-- Python `max(values, key=coerce_from_iter)`: `ValueError` on an empty
sequence. -/
def pyMaxByCoerce : List (List Nat) → Except PyError (List Nat)
  | [] => .error (.valueError "max() arg is an empty sequence")
  | v :: vs => pyMaxGo v vs

/-- Helper `parse_axes._find_var_name`: use the expected name when it is among the
data variables; otherwise build `dim_lookup = MultiMap(\x7bvar: ndim\x7d)` (every
value set a singleton), take the maximal dimension count, and reverse-look
it up; a bare string result is the fallback variable (logged as a warning),
while a set of several tied variables raises the spec's `ResolutionError`
(`ValueError`). -/
def findVarName (ds : Dataset) (expected : String) : Except PyError String :=
  match dget ds.data_vars expected with
  | some _ => .ok expected
  | none =>
    let dim_lookup : MultiMap Nat :=
      MultiMap.ofDict (ds.data_vars.map (fun kv => (kv.1, kv.2.dims.length)))
    match pyMaxByCoerce (dim_lookup.entries.map (fun kv => kv.2)) with
    | .error e => .error e
    | .ok vmax =>
      match coerce_from_iter vmax with
      | .inr _ => .error (.valueError "TypeError: unhashable")
      | .inl d_max =>
        match dim_lookup.inverse_get_ d_max with
        | .ok (.single name) => .ok name
        | .ok (.list _) => .error (.valueError "Couldn't determine var")
        | .error e => .error e

theorem pyMaxGo_singletons (a : Nat) (l : List Nat) :
    pyMaxGo [a] (l.map (fun n => [n])) = .ok [l.foldl Nat.max a] := by
  induction l generalizing a with
  | nil => rfl
  | cons b bs ih =>
    simp only [List.map_cons, pyMaxGo, coerce_from_iter, List.foldl_cons]
    by_cases h : b > a
    · rw [if_pos h, ih b]
      congr 3
      exact (Nat.max_eq_right (le_of_lt h)).symm
    · rw [if_neg h, ih a]
      congr 3
      exact (Nat.max_eq_left (Nat.le_of_not_lt h)).symm

theorem le_foldl_max_init (a : Nat) (l : List Nat) : a ≤ l.foldl Nat.max a := by
  induction l generalizing a with
  | nil => exact le_refl a
  | cons b bs ih => exact le_trans (Nat.le_max_left a b) (ih (Nat.max a b))

theorem le_foldl_max_of_mem (x : Nat) (l : List Nat) (hx : x ∈ l) (a : Nat) :
    x ≤ l.foldl Nat.max a := by
  induction l generalizing a with
  | nil => cases hx
  | cons b bs ih =>
    rcases List.mem_cons.mp hx with h | h
    · subst h
      exact le_trans (Nat.le_max_right a x) (le_foldl_max_init _ _)
    · exact ih h _

theorem foldl_max_le (b : Nat) (l : List Nat) (hl : ∀ x ∈ l, x ≤ b) :
    ∀ a : Nat, a ≤ b → l.foldl Nat.max a ≤ b := by
  induction l with
  | nil => intro a ha; exact ha
  | cons c cs ih =>
    intro a ha
    exact ih (fun x hx => hl x (List.mem_cons_of_mem c hx))
      (Nat.max a c) (Nat.max_le.mpr ⟨ha, hl c (List.mem_cons_self c cs)⟩)

theorem inverseKeys_ofDict (d : List (String × Nat)) (v : Nat) :
    (MultiMap.ofDict d).inverseKeys v =
      (d.filter (fun kv => kv.2 == v)).map (fun kv => kv.1) := by
  induction d with
  | nil => rfl
  | cons kv rest ih =>
    simp only [MultiMap.ofDict, MultiMap.inverseKeys, List.map_cons,
      List.filter_cons] at *
    by_cases h : kv.2 = v
    · simp [h] at *
      exact ih
    · simp [h, Ne.symm h] at *
      exact ih

theorem filter_pairmap (L : List (String × NCVar)) (D : Nat) :
    (L.map (fun kv => (kv.1, kv.2.dims.length))).filter (fun kv => kv.2 == D) =
      (L.filter (fun kv => kv.2.dims.length == D)).map
        (fun kv => (kv.1, kv.2.dims.length)) := by
  induction L with
  | nil => rfl
  | cons kv rest ih =>
    by_cases h : kv.2.dims.length = D <;> simp [List.filter_cons, h, ih]

theorem findVarName_fallback (ds : Dataset) (expected : String)
    (habs : dget ds.data_vars expected = none)
    (kv0 : String × NCVar) (rest : List (String × NCVar))
    (hL : ds.data_vars = kv0 :: rest) (D : Nat)
    (hmax : (rest.map (fun kv => kv.2.dims.length)).foldl Nat.max
      kv0.2.dims.length = D) :
    findVarName ds expected =
      match (MultiMap.ofDict ((kv0 :: rest).map
          (fun kv => (kv.1, kv.2.dims.length)))).inverse_get_ D with
      | .ok (.single name) => .ok name
      | .ok (.list _) => .error (.valueError "Couldn't determine var")
      | .error e => .error e := by
  simp only [findVarName, habs]
  rw [hL]
  have hvals : (((kv0 :: rest).map (fun kv => (kv.1, kv.2.dims.length))).map
        (fun kv => (kv.1, [kv.2]))).map (fun kv => kv.2) =
      [kv0.2.dims.length] ::
        ((rest.map (fun kv => kv.2.dims.length)).map (fun n => [n])) := by
    simp [List.map_map, Function.comp]
  simp only [MultiMap.ofDict, hvals, pyMaxByCoerce, pyMaxGo_singletons, hmax,
    coerce_from_iter]

/-- C3: variable-name resolution returns the expected name when it is among
the dataset's data variables; otherwise it returns the unique data variable
of greatest dimensionality (logging a fallback warning); and when two or
more data variables tie for maximum dimensionality it raises the spec's
`ResolutionError` (`ValueError`) rather than guessing.  `D` is the maximum
dimensionality, characterized abstractly by `hub`/`hat`. -/
theorem find_var_name_spec (ds : Dataset) (expected : String) (D : Nat)
    (hub : ∀ kv ∈ ds.data_vars, kv.2.dims.length ≤ D)
    (hat : ∃ kv ∈ ds.data_vars, kv.2.dims.length = D) :
    (∀ ncv, dget ds.data_vars expected = some ncv →
      findVarName ds expected = .ok expected) ∧
    (dget ds.data_vars expected = none →
      (∀ name ncv,
        ds.data_vars.filter (fun kv => kv.2.dims.length == D) = [(name, ncv)] →
        findVarName ds expected = .ok name) ∧
      (2 ≤ (ds.data_vars.filter (fun kv => kv.2.dims.length == D)).length →
        findVarName ds expected = .error (.valueError "Couldn't determine var"))) := by
  constructor
  · intro ncv h; simp [findVarName, h]
  · intro habs
    cases hL : ds.data_vars with
    | nil =>
      rcases hat with ⟨kv, hmem, _⟩
      rw [hL] at hmem
      cases hmem
    | cons kv0 rest =>
      have hmax : (rest.map (fun kv => kv.2.dims.length)).foldl Nat.max
          kv0.2.dims.length = D := by
        apply le_antisymm
        · apply foldl_max_le
          · intro x hx
            rcases List.mem_map.mp hx with ⟨kv, hkv, hxeq⟩
            subst hxeq
            exact hub kv (by rw [hL]; exact List.mem_cons_of_mem _ hkv)
          · exact hub kv0 (by rw [hL]; exact List.mem_cons_self _ _)
        · rcases hat with ⟨kv, hmem, hlen⟩
          rw [hL] at hmem
          rcases List.mem_cons.mp hmem with h | h
          · rw [← hlen, h]
            exact le_foldl_max_init _ _
          · rw [← hlen]
            exact le_foldl_max_of_mem kv.2.dims.length
              (rest.map (fun kv => kv.2.dims.length))
              (List.mem_map.mpr ⟨kv, h, rfl⟩) kv0.2.dims.length
      have hfb := findVarName_fallback ds expected habs kv0 rest hL D hmax
      have hkeys : (MultiMap.ofDict ((kv0 :: rest).map
            (fun kv => (kv.1, kv.2.dims.length)))).inverseKeys D =
          ((kv0 :: rest).filter (fun kv => kv.2.dims.length == D)).map
            (fun kv => kv.1) := by
        rw [inverseKeys_ofDict, filter_pairmap]
        simp [List.map_map, Function.comp]
      constructor
      · intro name ncv hfil
        rw [hfb]
        simp only [MultiMap.inverse_get_]
        rw [hkeys, hfil]
        rfl
      · intro hlen
        rw [hfb]
        simp only [MultiMap.inverse_get_]
        rw [hkeys]
        rcases hfl : ((kv0 :: rest).filter
            (fun kv => kv.2.dims.length == D)) with _ | ⟨p1, tl⟩
        · rw [hfl] at hlen; simp at hlen
        · rcases tl with _ | ⟨p2, tl2⟩
          · rw [hfl] at hlen; simp at hlen
          · rw [hfl]
            simp only [List.map_cons]

/-- C3 witness dataset: one 2-D and one 1-D variable. -/
def fvnDS1 : Dataset :=
  ⟨[("u", ⟨["t", "x"], [], []⟩), ("v", ⟨["t"], [], []⟩)], [], []⟩

/-- C3 witness dataset: two variables tied at 2 dimensions. -/
def fvnDS2 : Dataset :=
  ⟨[("u", ⟨["t", "x"], [], []⟩), ("w", ⟨["t", "y"], [], []⟩)], [], []⟩

/-- Witness for C3: expected name present is used as-is; absent expected name
falls back to the unique 2-D variable; a 2-D tie raises. -/
theorem find_var_name_spec_witness :
    findVarName fvnDS1 "v" = .ok "v" ∧
    findVarName fvnDS1 "tas" = .ok "u" ∧
    findVarName fvnDS2 "tas" = .error (.valueError "Couldn't determine var") := by
  refine ⟨?_, ?_, ?_⟩
  · exact (find_var_name_spec fvnDS1 "v" 2 (by decide) (by decide)).1
      ⟨["t"], [], []⟩ rfl
  · exact ((find_var_name_spec fvnDS1 "tas" 2 (by decide) (by decide)).2 rfl).1
      "u" ⟨["t", "x"], [], []⟩ (by decide)
  · exact ((find_var_name_spec fvnDS2 "tas" 2 (by decide) (by decide)).2 rfl).2
      (by decide)

/-- One entry of `var.remote_data`: a located source file with its local
path and date sub-range start (`date_range.start`, an `Int` timestamp). -/
structure RemoteFile where
  local_path : String
  rangeStart : Int
deriving DecidableEq

/-- The `self.files` initialization in `MDTFPreprocessorBase.__init__`:
`assert var.remote_data` (an empty list is falsy and fails the assertion);
a list of more than one file is sorted by `date_range.start` (Python
`sorted` is a stable sort); a single-file list is kept as-is. -/
def initFiles (remote_data : List RemoteFile) : Except PyError (List RemoteFile) :=
  match remote_data with
  | [] => .error .assertionError
  | l =>
    if l.length > 1 then
      .ok (l.mergeSort (fun a b => decide (a.rangeStart ≤ b.rangeStart)))
    else .ok l

/-- C9: for every accepted variable descriptor (the constructor asserts on an
empty remote-data list), the held file list is non-empty, is a permutation of
the given files, and is sorted by each file's date sub-range start; the
pipeline methods receive `self.files` read-only, so the invariant holds for
the whole run. -/
theorem init_files_sorted_nonempty (remote_data fs : List RemoteFile)
    (h : initFiles remote_data = .ok fs) :
    fs ≠ [] ∧ fs.Perm remote_data ∧
    fs.Pairwise (fun a b => a.rangeStart ≤ b.rangeStart) := by
  match remote_data, h with
  | f0 :: rest, h =>
    simp only [initFiles] at h
    by_cases hlen : (f0 :: rest).length > 1
    · rw [if_pos hlen] at h
      cases h
      refine ⟨?_, ?_, ?_⟩
      · intro hnil
        have := List.mergeSort_perm (f0 :: rest)
          (fun a b => decide (a.rangeStart ≤ b.rangeStart))
        rw [hnil] at this
        exact absurd this.symm (by simp)
      · exact List.mergeSort_perm _ _
      · have hs := @List.sorted_mergeSort RemoteFile
          (fun a b => decide (a.rangeStart ≤ b.rangeStart))
          (fun a b c hab hbc => by
            simp only [decide_eq_true_eq] at *
            exact le_trans hab hbc)
          (fun a b => by
            simp only [Bool.or_eq_true, decide_eq_true_eq]
            exact le_total a.rangeStart b.rangeStart)
          (f0 :: rest)
        exact hs.imp (fun hab => by simpa using hab)
    · rw [if_neg hlen] at h
      cases h
      have : rest = [] := by
        cases rest with
        | nil => rfl
        | cons x xs => exact absurd (by simp) hlen
      subst this
      exact ⟨by simp, List.Perm.refl _, by simp⟩

/-- Witness for C9: three files out of order are sorted by sub-range start. -/
theorem init_files_sorted_nonempty_witness :
    initFiles [⟨"c", 3⟩, ⟨"a", 1⟩, ⟨"b", 2⟩] =
      .ok [⟨"a", 1⟩, ⟨"b", 2⟩, ⟨"c", 3⟩] ∧
    ([⟨"a", 1⟩, ⟨"b", 2⟩, ⟨"c", 3⟩] : List RemoteFile) ≠ [] ∧
    ([⟨"a", 1⟩, ⟨"b", 2⟩, ⟨"c", 3⟩] : List RemoteFile).Perm
      [⟨"c", 3⟩, ⟨"a", 1⟩, ⟨"b", 2⟩] ∧
    ([⟨"a", 1⟩, ⟨"b", 2⟩, ⟨"c", 3⟩] : List RemoteFile).Pairwise
      (fun a b => a.rangeStart ≤ b.rangeStart) := by
  have he : initFiles [⟨"c", 3⟩, ⟨"a", 1⟩, ⟨"b", 2⟩] =
      .ok [⟨"a", 1⟩, ⟨"b", 2⟩, ⟨"c", 3⟩] := by
    simp [initFiles, List.mergeSort, List.merge]
  exact ⟨he, init_files_sorted_nonempty [⟨"c", 3⟩, ⟨"a", 1⟩, ⟨"b", 2⟩]
    [⟨"a", 1⟩, ⟨"b", 2⟩, ⟨"c", 3⟩] he⟩

/-- The method `parse_axes` computes `other_axes = set(ds[var_name].dims).difference(
list(self.ax_names.values()))` and then assigns tags by `for i, ax_name in
enumerate(other_axes)`.  Python set iteration order is unspecified
(hash-based, randomized across processes), so the embedding is parameterized
over the observed enumeration: `isSetDiffEnum dims claimed enum` states that
`enum` is one legitimate iteration of the set difference. -/
def isSetDiffEnum (dims claimed enum : List String) : Prop :=
  enum.Nodup ∧ (∀ x ∈ enum, x ∈ dims ∧ x ∉ claimed) ∧
    (∀ x ∈ dims, x ∉ claimed → x ∈ enum)

/-- Assignment `self.ax_names['W' + str(i)] = ax_name` over `enumerate(other_axes)`. -/
def assignExtraAxes (enum : List String) : List (String × String) :=
  enum.enum.map (fun p => ("W" ++ toString p.1, p.2))

/-- Counterexample to C7 as stated: `["wav", "lev"]` is a legitimate
iteration of the set difference \x7b"lev", "wav"\x7d — Python string-set order is
hash-driven and need not follow insertion order — yet it assigns
W0 ↦ wav, W1 ↦ lev, while the dims listing's insertion order would assign
W0 ↦ lev, W1 ↦ wav. -/
theorem extra_axes_insertion_order_counterexample :
    isSetDiffEnum ["time", "lev", "wav"] ["time"] ["wav", "lev"] ∧
    assignExtraAxes ["wav", "lev"] ≠
      assignExtraAxes (["time", "lev", "wav"].filter
        (fun d => !(["time"].contains d))) := by
  constructor
  · refine ⟨by decide, by decide, by decide⟩
  · decide

/-- C7 amended: the W-tag assignment is a deterministic function of the
set-difference enumeration the run observes — the tags are `W0 … W(k-1)` in
enumeration order — and every legitimate enumeration is a permutation of the
unclaimed dimensions of the dims listing; but the enumeration order itself
is a Python set iteration, not guaranteed to equal the dims listing's
insertion order nor to agree between two runs. -/
theorem extra_axes_assignment_amended (dims claimed enum : List String)
    (hdn : dims.Nodup) (he : isSetDiffEnum dims claimed enum) :
    (assignExtraAxes enum).map (fun p => p.2) = enum ∧
    (assignExtraAxes enum).map (fun p => p.1) =
      (List.range enum.length).map (fun i => "W" ++ toString i) ∧
    enum.Perm (dims.filter (fun d => decide (d ∉ claimed))) := by
  obtain ⟨hnd, hmem, hcov⟩ := he
  refine ⟨?_, ?_, ?_⟩
  · simp only [assignExtraAxes, List.map_map]
    have hf : ((fun p : String × String => p.2) ∘
        fun p : Nat × String => ("W" ++ toString p.1, p.2)) = Prod.snd := rfl
    rw [hf, List.enum_map_snd]
  · simp only [assignExtraAxes, List.map_map]
    have hf : ((fun p : String × String => p.1) ∘
        fun p : Nat × String => ("W" ++ toString p.1, p.2)) =
        (fun i : Nat => "W" ++ toString i) ∘ Prod.fst := rfl
    rw [hf, ← List.map_map, List.enum_map_fst]
  · refine (List.perm_ext_iff_of_nodup hnd
      (hdn.filter (fun d => decide (d ∉ claimed)))).mpr ?_
    intro a
    simp only [List.mem_filter, decide_eq_true_eq]
    constructor
    · intro ha
      exact ⟨(hmem a ha).1, (hmem a ha).2⟩
    · rintro ⟨hd, hnc⟩
      exact hcov a hd hnc

/-- Witness for the amended C7 at the counterexample's input. -/
theorem extra_axes_assignment_amended_witness :
    (assignExtraAxes ["wav", "lev"]).map (fun p => p.2) = ["wav", "lev"] ∧
    (assignExtraAxes ["wav", "lev"]).map (fun p => p.1) = ["W0", "W1"] ∧
    (["wav", "lev"] : List String).Perm
      (["time", "lev", "wav"].filter (fun d => decide (d ∉ ["time"]))) := by
  have h := extra_axes_assignment_amended ["time", "lev", "wav"] ["time"]
    ["wav", "lev"] (by decide) ⟨by decide, by decide, by decide⟩
  exact ⟨h.1, h.2.1.trans (by decide), h.2.2⟩

/-- The data variables of `ds` that do not span the concatenation dimension:
with `data_vars="minimal"` these are not concatenated. -/
def nonTimeVars (ds : Dataset) (tname : String) : List (String × NCVar) :=
  ds.data_vars.filter (fun kv => !(decide (tname ∈ kv.2.dims)))

/-- Names and dimension lists of the time-spanning data variables (their
shapes must line up for the concatenation to be defined). -/
def timeVarNames (ds : Dataset) (tname : String) : List (String × List String) :=
  (ds.data_vars.filter (fun kv => decide (tname ∈ kv.2.dims))).map
    (fun kv => (kv.1, kv.2.dims))

/-- The coordinate axes other than the concatenation dimension: with
`join="exact"` these must match exactly across files. -/
def nonTimeCoords (ds : Dataset) (tname : String) : List (String × List Int) :=
  ds.coords.filter (fun c => !(decide (c.1 = tname)))

/-- Check `join="exact"`: every later file's non-time coordinate axes equal the
first file's. -/
def alignOk (f0 : Dataset) (rest : List Dataset) (tname : String) : Bool :=
  rest.all (fun f => nonTimeCoords f0 tname == nonTimeCoords f tname)

/-- Check `compat="identical"`: every later file's global attributes,
non-concatenated variables, and time-variable shapes equal the first
file's. -/
def identicalOk (f0 : Dataset) (rest : List Dataset) (tname : String) : Bool :=
  rest.all (fun f => (f0.attrs == f.attrs) &&
    (nonTimeVars f0 tname == nonTimeVars f tname) &&
    (timeVarNames f0 tname == timeVarNames f tname))

/-- The cells a file contributes for variable `name`. -/
def varCells (ds : Dataset) (name : String) : List (List Int × Int) :=
  match dget ds.data_vars name with
  | some v => v.cells
  | none => []

/-- The combined dataset: time-spanning variables and the time coordinate
are concatenated across the files in order; everything else is taken from
the representative first file. -/
def mergeDatasets (files : List Dataset) (tname : String) : Dataset :=
  match files with
  | [] => ⟨[], [], []⟩
  | f0 :: _ =>
    { data_vars := f0.data_vars.map (fun kv =>
        if tname ∈ kv.2.dims then
          (kv.1, { kv.2 with cells := (files.map (fun f => varCells f kv.1)).flatten })
        else kv),
      coords := f0.coords.map (fun c =>
        if c.1 = tname then
          (c.1, (files.map (fun f => (dget f.coords tname).getD [])).flatten)
        else c),
      attrs := f0.attrs }

/-- Modelled from the spec: the semantics of
`xarray.open_mfdataset(..., combine="by_coords", compat="identical",
data_vars="minimal", coords="minimal", join="exact")` — xarray is an
external library, absent from src/.  Per spec §4.3: non-concatenated
variables and attributes must be identical across files and non-time
dimensions must match exactly (both fatal `MergeConsistencyError` on
violation, surfacing as xarray's merge error and alignment `ValueError`
respectively); only time-spanning variables and coordinates are
concatenated, the rest coming from a representative file. -/
def open_mfdataset (files : List Dataset) (tname : String) : Except PyError Dataset :=
  match files with
  | [] => .error (.valueError "must supply at least one dataset")
  | f0 :: rest =>
    if alignOk f0 rest tname then
      if identicalOk f0 rest tname then
        .ok (mergeDatasets (f0 :: rest) tname)
      else
        .error (.mergeError "compat=identical: conflicting non-concatenated variables or attributes")
    else
      .error (.valueError "join=exact: conflicting non-time dimensions")

/-- Evaluate a list of fallible per-file results left to right, propagating
the first exception (the per-file `preprocess` hook runs as each file is
opened). -/
def sequenceExcept {ε α : Type} : List (Except ε α) → Except ε (List α)
  | [] => .ok []
  | x :: xs =>
    match x with
    | .error e => .error e
    | .ok a =>
      match sequenceExcept xs with
      | .error e => .error e
      | .ok as => .ok (a :: as)

/-- Method `DaskMultiFilePreprocessor.preprocess` for the general pipeline (its
function chain is `[CropDateRangeFunction, ExtractLevelFunction]`).  The
probe-open of the first file and `parse` strip that file's attributes and
resolve the context (given here as `ax_names` / `dr` / `v`); the static
branch asserts a single file before running the static hooks (all
identities); the time-dependent branch re-opens every file, applying the
per-file hooks (attribute strip, then level extraction) as each is opened,
merges with the strict flag set of `open_mfdataset`, and runs the
whole-dataset hooks (the crop, then the level function's identity). -/
def DaskMultiFilePreprocessor.preprocess (files : List Dataset)
    (ax_names : List (String × String)) (dr : DateRangeBounds)
    (v : VarDescriptor) (is_static : Bool) : RunResult :=
  match files with
  | [] => ⟨none, some .indexError⟩    -- self.files[0] on an empty list
  | f0 :: rest =>
    if is_static then
      match rest with
      | [] => ⟨some (stripDatasetAttrs f0), none⟩
      | _ => ⟨none, some .assertionError⟩   -- assert len(self.files) == 1
    else
      match dget ax_names "T" with
      | none => ⟨none, some (.keyError "T")⟩  -- concat_dim=self.ax_names['T']
      | some tname =>
        match sequenceExcept ((f0 :: rest).map (fun f =>
            extract_level (stripDatasetAttrs (cropProcessFile f)) ax_names v)) with
        | .error e => ⟨none, some e⟩
        | .ok processed =>
          match open_mfdataset processed tname with
          | .error e => ⟨none, some e⟩
          | .ok merged =>
            match crop_time_axis merged ax_names dr with
            | .error e => ⟨none, some e⟩
            | .ok out => ⟨some (extractLevelProcessDataset out), none⟩

/-- Counterexample to C8 as stated: a two-file static run trips the
`assert len(self.files) == 1` before any processing — an error branch is
reachable for a permitted (per the claim) file-list length, and nothing is
written. -/
theorem dask_static_multi_file_counterexample :
    DaskMultiFilePreprocessor.preprocess [⟨[], [], []⟩, ⟨[], [], []⟩] []
      ⟨0, 0, 0, 0⟩ ⟨"x", []⟩ true = ⟨none, some .assertionError⟩ := rfl

/-- C8 amended: the multi-file variant's static path requires exactly one
source file (the code asserts this); with a single file it runs the static
hooks only and reaches the output write with no error (only the attribute
normalization of `parse` is applied), while with two or more files the
assertion fires and no output is written. -/
theorem dask_static_path_amended (files : List Dataset)
    (ax_names : List (String × String)) (dr : DateRangeBounds)
    (v : VarDescriptor) :
    (∀ f0, files = [f0] →
      DaskMultiFilePreprocessor.preprocess files ax_names dr v true =
        ⟨some (stripDatasetAttrs f0), none⟩) ∧
    (2 ≤ files.length →
      DaskMultiFilePreprocessor.preprocess files ax_names dr v true =
        ⟨none, some .assertionError⟩) := by
  constructor
  · intro f0 h
    subst h
    rfl
  · intro hlen
    match files, hlen with
    | f0 :: f1 :: frest, _ => rfl

/-- Witness for the amended C8: one static file is written with stripped
attributes; two static files fail the assertion. -/
theorem dask_static_path_amended_witness :
    DaskMultiFilePreprocessor.preprocess [⟨[], [], [("t", " x ")]⟩] []
      ⟨0, 0, 0, 0⟩ ⟨"x", []⟩ true =
      ⟨some (stripDatasetAttrs ⟨[], [], [("t", " x ")]⟩), none⟩ ∧
    DaskMultiFilePreprocessor.preprocess [⟨[], [], []⟩, ⟨[], [], [("a", "b")]⟩]
      [] ⟨0, 0, 0, 0⟩ ⟨"x", []⟩ true = ⟨none, some .assertionError⟩ := by
  constructor
  · exact (dask_static_path_amended [⟨[], [], [("t", " x ")]⟩] [] ⟨0, 0, 0, 0⟩
      ⟨"x", []⟩).1 ⟨[], [], [("t", " x ")]⟩ rfl
  · exact (dask_static_path_amended [⟨[], [], []⟩, ⟨[], [], [("a", "b")]⟩] []
      ⟨0, 0, 0, 0⟩ ⟨"x", []⟩).2 (by decide)

theorem filter_merge_vars (L : List (String × NCVar)) (tname : String)
    (F : String → List (List Int × Int)) :
    (L.map (fun kv => if tname ∈ kv.2.dims then
        (kv.1, { kv.2 with cells := F kv.1 }) else kv)).filter
      (fun kv => !(decide (tname ∈ kv.2.dims))) =
      L.filter (fun kv => !(decide (tname ∈ kv.2.dims))) := by
  induction L with
  | nil => rfl
  | cons kv rest ih =>
    by_cases h : tname ∈ kv.2.dims
    · simp [List.filter_cons, h, ih]
    · simp [List.filter_cons, h, ih]

theorem filter_merge_coords (L : List (String × List Int)) (tname : String)
    (TV : List Int) :
    (L.map (fun c => if c.1 = tname then (c.1, TV) else c)).filter
      (fun c => !(decide (c.1 = tname))) =
      L.filter (fun c => !(decide (c.1 = tname))) := by
  induction L with
  | nil => rfl
  | cons c rest ih =>
    by_cases h : c.1 = tname
    · simp [List.filter_cons, h, ih]
    · simp [List.filter_cons, h, ih]

theorem dget_map_coord (L : List (String × List Int)) (tname : String)
    (TV : List Int) (h : (dget L tname).isSome) :
    dget (L.map (fun c => if c.1 = tname then (c.1, TV) else c)) tname =
      some TV := by
  induction L with
  | nil => simp at h
  | cons c rest ih =>
    obtain ⟨k, v⟩ := c
    by_cases hc : k = tname
    · simp [hc]
    · simp only [dget_cons, if_neg hc] at h
      simp [hc, ih h]

/-- C2: in the chunked pipeline's merge, a divergence across files in a
non-concatenated variable or attribute, and a mismatch in a non-time
dimension, are each fatal — the merge returns the spec's
`MergeConsistencyError` (xarray's merge error, resp. alignment
`ValueError`), and the pipeline then writes no output file; on success only
time-spanning variables and the time coordinate are concatenated, all else
taken from the representative first file. -/
theorem dask_merge_consistency_spec (tname : String) (f0 : Dataset)
    (rest : List Dataset) :
    (alignOk f0 rest tname = false →
      open_mfdataset (f0 :: rest) tname =
        .error (.valueError "join=exact: conflicting non-time dimensions")) ∧
    (alignOk f0 rest tname = true → identicalOk f0 rest tname = false →
      open_mfdataset (f0 :: rest) tname =
        .error (.mergeError
          "compat=identical: conflicting non-concatenated variables or attributes")) ∧
    (∀ ds, open_mfdataset (f0 :: rest) tname = .ok ds →
      ds = mergeDatasets (f0 :: rest) tname ∧
      nonTimeVars ds tname = nonTimeVars f0 tname ∧
      ds.attrs = f0.attrs ∧
      nonTimeCoords ds tname = nonTimeCoords f0 tname ∧
      (∀ tv, dget f0.coords tname = some tv →
        dget ds.coords tname =
          some (((f0 :: rest).map
            (fun f => (dget f.coords tname).getD [])).flatten))) ∧
    (∀ ax_names dr v processed e, dget ax_names "T" = some tname →
      sequenceExcept ((f0 :: rest).map (fun f =>
        extract_level (stripDatasetAttrs (cropProcessFile f)) ax_names v)) =
          .ok processed →
      open_mfdataset processed tname = .error e →
      DaskMultiFilePreprocessor.preprocess (f0 :: rest) ax_names dr v false =
        ⟨none, some e⟩) := by
  refine ⟨?_, ?_, ?_, ?_⟩
  · intro h
    simp [open_mfdataset, h]
  · intro h1 h2
    simp [open_mfdataset, h1, h2]
  · intro ds h
    by_cases h1 : alignOk f0 rest tname
    · by_cases h2 : identicalOk f0 rest tname
      · simp only [open_mfdataset, h1, h2, if_pos, if_true] at h
        have hds : ds = mergeDatasets (f0 :: rest) tname := by
          cases h
          rfl
        subst hds
        refine ⟨rfl, ?_, rfl, ?_, ?_⟩
        · exact filter_merge_vars f0.data_vars tname
            (fun n => ((f0 :: rest).map (fun f => varCells f n)).flatten)
        · exact filter_merge_coords f0.coords tname
            (((f0 :: rest).map (fun f => (dget f.coords tname).getD [])).flatten)
        · intro tv htv
          exact dget_map_coord f0.coords tname _ (by rw [htv]; rfl)
      · simp [open_mfdataset, h1, h2] at h
    · simp [open_mfdataset, h1] at h
  · intro ax_names dr v processed e hT hseq hmerge
    simp only [DaskMultiFilePreprocessor.preprocess, Bool.false_eq_true,
      if_false, hT, hseq, hmerge]

/-- First file for the C2 witness: variable `tas` on time [1], instrument
attribute "X". -/
def mfF0 : Dataset :=
  ⟨[("tas", ⟨["time"], [], [([1], 10)]⟩)], [("time", [1])], [("inst", "X")]⟩

/-- A compatible second file: time [2], identical attributes. -/
def mfFok : Dataset :=
  ⟨[("tas", ⟨["time"], [], [([2], 20)]⟩)], [("time", [2])], [("inst", "X")]⟩

/-- An incompatible second file: the shared non-concatenated attribute
`inst` differs. -/
def mfFbad : Dataset :=
  ⟨[("tas", ⟨["time"], [], [([2], 20)]⟩)], [("time", [2])], [("inst", "Y")]⟩

/-- Axis-role mapping for the C2 witness. -/
def mfAx : List (String × String) := [("var", "tas"), ("T", "time")]

/-- Witness for C2: a diverging non-concatenated attribute makes the merge
and the whole pipeline fail with nothing written, while compatible files
merge with the time axis concatenated and non-concatenated content taken
from the first file. -/
theorem dask_merge_consistency_spec_witness :
    open_mfdataset [mfF0, mfFbad] "time" =
      .error (.mergeError
        "compat=identical: conflicting non-concatenated variables or attributes") ∧
    DaskMultiFilePreprocessor.preprocess [mfF0, mfFbad] mfAx ⟨0, 0, 5, 5⟩
      ⟨"tas", []⟩ false =
      ⟨none, some (.mergeError
        "compat=identical: conflicting non-concatenated variables or attributes")⟩ ∧
    nonTimeVars (mergeDatasets [mfF0, mfFok] "time") "time" =
      nonTimeVars mfF0 "time" ∧
    dget (mergeDatasets [mfF0, mfFok] "time").coords "time" = some [1, 2] := by
  have hok := (dask_merge_consistency_spec "time" mfF0 [mfFok]).2.2.1
    (mergeDatasets [mfF0, mfFok] "time") (by decide)
  refine ⟨?_, ?_, hok.2.1, ?_⟩
  · exact (dask_merge_consistency_spec "time" mfF0 [mfFbad]).2.1
      (by decide) (by decide)
  · exact (dask_merge_consistency_spec "time" mfF0 [mfFbad]).2.2.2 mfAx
      ⟨0, 0, 5, 5⟩ ⟨"tas", []⟩
      [stripDatasetAttrs (cropProcessFile mfF0), stripDatasetAttrs (cropProcessFile mfFbad)]
      _ rfl rfl (by decide)
  · exact (hok.2.2.2.2 [1] rfl).trans (by decide)
